import Mathlib

/-!
# QuickTick virtual clock - shallow embedding and verification

This file embeds the Go package `quicktick` (file `clock.go`) in Lean 4 and
proves properties of its clock engine.

Modelling conventions:
* `time.Time` and `time.Duration` are modelled as `Int`, counting nanoseconds
  (Go durations are int64 nanosecond counts; `time.Time` is idealised as a
  point on an integer nanosecond line, ignoring the wall/monotonic split).
* The `float64` multiplier and the floating-point arithmetic in `updateClock`
  are idealised as exact rational arithmetic over `ℚ`; Go's `int64(f)`
  conversion truncates toward zero, modelled by `ratTrunc`.
* Sampling of the real-time clock (`time.Now()` / `time.Since`) is made
  explicit: every function of the source that reads the real clock takes the
  sampled instant as an extra `Int` parameter.
* The `done` channel is modelled by the flag `doneClosed`, the consumed state
  of the `sync.Once` by `onceUsed`, and the fact that the background goroutine
  has returned by `loopExited`.  `close` of an already-closed channel panics in
  Go; `closeChan` returns that panic as an `Except.error`.
* Concurrency: individual atomic actions (an `atomic.StoreInt64`/`LoadInt64`,
  a mutex-protected critical section, a `once.Do` body) are modelled as
  indivisible state transitions; concurrent executions are the interleavings
  of those transitions.  The lifecycle interleavings are captured by the
  `Op` trace model, and the tick/Reset race by `TickResetSchedule`.
-/

/-- `time.Millisecond` in nanoseconds. -/
def timeMillisecond : Int := 1000000

/-- `time.Second` in nanoseconds. -/
def timeSecond : Int := 1000000000

/-- Go's `int64(f)` conversion of a floating-point value: truncation toward
zero, modelled on the exact rational value.  `Int.tdiv` is truncating
division and `q.den` is positive, so this is exactly ⌊q⌋ for `q ≥ 0` and
⌈q⌉ for `q < 0`. -/
def ratTrunc (q : ℚ) : Int := Int.tdiv q.num (Int.ofNat q.den)

/-- `time.Duration.Seconds`: the duration expressed in seconds, as an exact
rational (Go returns a `float64`). -/
def durationSeconds (d : Int) : ℚ := (d : ℚ) / (timeSecond : ℚ)

/-- The state of one `QuickTick` value from `clock.go`:

```go
type QuickTick struct {
    multiplier      float64
    tickerInterval  time.Duration
    startTime       time.Time
    startRealTime   time.Time
    currentDuration int64
    done            chan struct{}
    mu              sync.Mutex
    once            sync.Once
}
```

`done` is represented by `doneClosed`, `once` by `onceUsed`; `mu` has no data
content and is represented by the atomicity of the lock-protected transitions.
`loopExited` records whether the background goroutine started at construction
has returned. -/
structure QuickTick where
  multiplier : ℚ
  tickerInterval : Int
  startTime : Int
  startRealTime : Int
  currentDuration : Int
  doneClosed : Bool
  onceUsed : Bool
  loopExited : Bool
deriving DecidableEq, Repr

namespace QuickTick

/-- `New(multiplier)`: samples `time.Now()` once (parameter `now`) and uses it
for both `startTime` and `startRealTime`; ticker interval is one millisecond.
The freshly made `done` channel is open and the `once` unused; the goroutine
`run` is started, so the loop has not exited. -/
def New (now : Int) (multiplier : ℚ) : QuickTick :=
  { multiplier := multiplier
    tickerInterval := timeMillisecond
    startTime := now
    startRealTime := now
    currentDuration := 0
    doneClosed := false
    onceUsed := false
    loopExited := false }

/-- `NewCustom(startTime, multiplier, updateInterval)`: `startTime` is the
caller's virtual epoch, while `startRealTime` is a fresh `time.Now()` sample
(parameter `now`). -/
def NewCustom (startTime : Int) (multiplier : ℚ) (updateInterval : Int)
    (now : Int) : QuickTick :=
  { multiplier := multiplier
    tickerInterval := updateInterval
    startTime := startTime
    startRealTime := now
    currentDuration := 0
    doneClosed := false
    onceUsed := false
    loopExited := false }

/-- `NewCtx(ctx, multiplier)`: identical state to `New`; only the goroutine
differs (`runWithContext` instead of `run`).  The context itself carries no
clock state. -/
def NewCtx (now : Int) (multiplier : ℚ) : QuickTick :=
  { multiplier := multiplier
    tickerInterval := timeMillisecond
    startTime := now
    startRealTime := now
    currentDuration := 0
    doneClosed := false
    onceUsed := false
    loopExited := false }

/-- `NewCustomCtx(ctx, startTime, multiplier, updateInterval)`: identical
state to `NewCustom`, run with `runWithContext`. -/
def NewCustomCtx (startTime : Int) (multiplier : ℚ) (updateInterval : Int)
    (now : Int) : QuickTick :=
  { multiplier := multiplier
    tickerInterval := updateInterval
    startTime := startTime
    startRealTime := now
    currentDuration := 0
    doneClosed := false
    onceUsed := false
    loopExited := false }

/-- First phase of `updateClock`, executed under `ac.mu`:
`elapsedRealTime := time.Since(ac.startRealTime)` where `now` is the real
instant sampled by `time.Since`. -/
def updateClockRead (now : Int) (ac : QuickTick) : Int :=
  now - ac.startRealTime

/-- Second phase of `updateClock`, executed after `ac.mu` is released:
`acceleratedElapsedTime := elapsedRealTime.Seconds() * ac.multiplier` followed
by the lock-free atomic store
`atomic.StoreInt64(&ac.currentDuration, int64(acceleratedElapsedTime*float64(time.Second)))`. -/
def updateClockPublish (elapsed : Int) (ac : QuickTick) : QuickTick :=
  let acceleratedElapsedTime : ℚ := durationSeconds elapsed * ac.multiplier
  { ac with currentDuration :=
      ratTrunc (acceleratedElapsedTime * (timeSecond : ℚ)) }

/-- `updateClock` from `clock.go`: read the elapsed real time under the mutex,
then compute and atomically publish the accelerated duration. -/
def updateClock (now : Int) (ac : QuickTick) : QuickTick :=
  updateClockPublish (updateClockRead now ac) ac

/-- `Now()`: atomically loads `currentDuration` and returns
`ac.startTime.Add(accumulatedDuration)`.  It does not sample the real
clock. -/
def Now (ac : QuickTick) : Int :=
  ac.startTime + ac.currentDuration

/-- `close(ch)` on a channel whose closed-state is `closed`: closing an
already-closed channel panics in Go, modelled as an `Except.error`; otherwise
the channel becomes closed. -/
def closeChan (closed : Bool) : Except String Bool :=
  if closed then Except.error "close of closed channel" else Except.ok true

/-- `Stop()` as executed: `ac.once.Do(func() { close(ac.done) })` - the body
runs only on the first call, so the `done` channel is closed exactly then. -/
def Stop (ac : QuickTick) : QuickTick :=
  if ac.onceUsed then ac
  else { ac with onceUsed := true, doneClosed := true }

/-- `Stop()` including the possibility of a `close` panic: `once.Do` runs
`close(ac.done)` only when the once is still unused. -/
def StopE (ac : QuickTick) : Except String QuickTick :=
  if ac.onceUsed then Except.ok ac
  else
    match closeChan ac.doneClosed with
    | Except.error e => Except.error e
    | Except.ok c => Except.ok { ac with onceUsed := true, doneClosed := c }

/-- First write of `Reset()` inside the `ac.mu` critical section:
`ac.startRealTime = time.Now()` (sampled instant `now`). -/
def resetEpoch (now : Int) (ac : QuickTick) : QuickTick :=
  { ac with startRealTime := now }

/-- Second write of `Reset()` inside the critical section:
`atomic.StoreInt64(&ac.currentDuration, 0)`. -/
def resetZero (ac : QuickTick) : QuickTick :=
  { ac with currentDuration := 0 }

/-- `Reset()` from `clock.go`: under `ac.mu`, set `startRealTime` to the
current real time and the published duration to zero. -/
def Reset (now : Int) (ac : QuickTick) : QuickTick :=
  resetZero (resetEpoch now ac)

/-- The period of the ticker created by `run`:
`ticker := time.NewTicker(time.Millisecond)` - the literal constant
`time.Millisecond`, independent of the clock's `tickerInterval` field. -/
def runTickerPeriod (_ac : QuickTick) : Int := timeMillisecond

/-- The period of the ticker created by `runWithContext`:
`ticker := time.NewTicker(time.Millisecond)` - again the literal constant. -/
def runWithContextTickerPeriod (_ac : QuickTick) : Int := timeMillisecond

/-- One atomic lifecycle transition of the system around a clock:

* `tick now` - the background loop (`run` / `runWithContext`) receives a
  ticker fire and executes `updateClock`; once the goroutine has returned
  no further ticks are processed;
* `stop` - some caller executes `Stop()`;
* `exitLoop` - the loop observes the closed `done` channel
  (`case <-ac.done: return`) and the goroutine returns; enabled only once
  `done` is closed;
* `ctxCancel` - in `runWithContext`, the loop observes `<-ctx.Done()`,
  executes `ac.Stop()` and returns;
* `reset now` - some caller executes `Reset()` with real-time sample `now`.

Go's `select` picks nondeterministically among ready cases, so a trace is any
list of these transitions subject only to each transition's enabling guard,
which the interpretation below checks itself. -/
inductive Op where
  | tick (now : Int) : Op
  | stop : Op
  | exitLoop : Op
  | ctxCancel : Op
  | reset (now : Int) : Op
deriving DecidableEq, Repr

/-- Whether a transition is a `Reset()` call. -/
def Op.isReset : Op → Bool
  | Op.reset _ => true
  | _ => false

/-- Interpretation of one lifecycle transition on the clock state. -/
def applyOp (ac : QuickTick) : Op → QuickTick
  | Op.tick now => if ac.loopExited then ac else updateClock now ac
  | Op.stop => Stop ac
  | Op.exitLoop =>
      if ac.doneClosed then { ac with loopExited := true } else ac
  | Op.ctxCancel =>
      if ac.loopExited then ac else { Stop ac with loopExited := true }
  | Op.reset now => Reset now ac

/-- Interpretation of a trace of lifecycle transitions. -/
def applyTrace (ac : QuickTick) : List Op → QuickTick
  | [] => ac
  | op :: ops => applyTrace (applyOp ac op) ops

/-- `n` sequential executions of `Stop()`.  `sync.Once` serialises concurrent
`Do` calls internally, so any concurrent set of `Stop()` calls executes as
some sequence of `Stop` transitions. -/
def stopN : Nat → QuickTick → QuickTick
  | 0, ac => ac
  | n + 1, ac => stopN n (Stop ac)

/-- Whether a `Stop()` call executed in state `ac` runs the `once.Do` body,
i.e. actually closes the `done` channel. -/
def stopCloses (ac : QuickTick) : Bool := !ac.onceUsed

/-- How many of `n` sequential `Stop()` calls starting from `ac` close the
`done` channel. -/
def closeCount : Nat → QuickTick → Nat
  | 0, _ => 0
  | n + 1, ac => (if stopCloses ac then 1 else 0) + closeCount n (Stop ac)

/-- The interleavings of one background tick with one concurrent `Reset()`.

The tick consists of the event `R` (`updateClockRead`, executed under
`ac.mu`) followed by the event `P` (`updateClockPublish`, a lock-free atomic
store).  The reset is the critical section `E` (`resetEpoch`) immediately
followed by `Z` (`resetZero`), both under `ac.mu`.  The mutex forbids `R`
from falling strictly between `E` and `Z`, and program order forces `R`
before `P` and `E` before `Z`; `P` takes no lock and may land anywhere after
`R`.  The complete list of interleavings is therefore:

* `tickThenReset`     - `R P E Z`
* `readResetPublish`  - `R E Z P` (the tick publishes after the reset)
* `publishInsideReset`- `R E P Z` (the store of zero lands last)
* `resetThenTick`     - `E Z R P` -/
inductive TickResetSchedule where
  | tickThenReset : TickResetSchedule
  | readResetPublish : TickResetSchedule
  | publishInsideReset : TickResetSchedule
  | resetThenTick : TickResetSchedule
deriving DecidableEq, Repr

/-- The elapsed real time captured by the tick's locked read phase under a
given interleaving: only in `resetThenTick` has the reset already installed
the new epoch when the read happens. -/
def tickElapsed (s : TickResetSchedule) (tickNow resetNow : Int)
    (ac : QuickTick) : Int :=
  match s with
  | TickResetSchedule.resetThenTick => updateClockRead tickNow (Reset resetNow ac)
  | _ => updateClockRead tickNow ac

/-- Whether, in the given interleaving, the tick's atomic store happens after
the reset has stored zero. -/
def publishAfterResetZero : TickResetSchedule → Bool
  | TickResetSchedule.readResetPublish => true
  | _ => false

/-- Executing one tick interleaved with one `Reset()` under the given
schedule, starting from `ac`, with the tick's `time.Since` sampling `tickNow`
and the reset's `time.Now()` sampling `resetNow`. -/
def execTickReset (s : TickResetSchedule) (tickNow resetNow : Int)
    (ac : QuickTick) : QuickTick :=
  match s with
  | TickResetSchedule.tickThenReset =>
      Reset resetNow (updateClock tickNow ac)
  | TickResetSchedule.readResetPublish =>
      updateClockPublish (updateClockRead tickNow ac) (Reset resetNow ac)
  | TickResetSchedule.publishInsideReset =>
      resetZero (updateClockPublish (updateClockRead tickNow ac)
        (resetEpoch resetNow ac))
  | TickResetSchedule.resetThenTick =>
      updateClock tickNow (Reset resetNow ac)

end QuickTick

namespace QuickTick

/-! ## Helper lemmas about the truncating conversion -/

theorem ratTrunc_neg (q : ℚ) : ratTrunc (-q) = -ratTrunc q := by
  unfold ratTrunc
  rw [Rat.neg_num, Rat.neg_den, Int.neg_tdiv]

theorem ratTrunc_eq_floor (q : ℚ) (h : 0 ≤ q) : ratTrunc q = ⌊q⌋ := by
  unfold ratTrunc
  rw [Rat.floor_def]
  exact Int.tdiv_eq_ediv (Rat.num_nonneg.mpr h) (Int.ofNat_nonneg q.den)

theorem ratTrunc_eq_ceil (q : ℚ) (h : q ≤ 0) : ratTrunc q = ⌈q⌉ := by
  have h2 : ratTrunc q = -ratTrunc (-q) := by rw [ratTrunc_neg, neg_neg]
  rw [h2, ratTrunc_eq_floor (-q) (by linarith)]
  rfl

theorem ratTrunc_zero : ratTrunc 0 = 0 := rfl

theorem ratTrunc_nonpos (q : ℚ) (h : q ≤ 0) : ratTrunc q ≤ 0 := by
  rw [ratTrunc_eq_ceil q h]
  exact Int.ceil_le.mpr (by exact_mod_cast h)

theorem ratTrunc_neg_of_le_neg_one (q : ℚ) (h : q ≤ -1) : ratTrunc q < 0 := by
  have h2 : ratTrunc q ≤ -1 := by
    rw [ratTrunc_eq_ceil q (by linarith)]
    exact Int.ceil_le.mpr (by exact_mod_cast h)
  omega

/-- The scaling in `updateClock` cancels exactly in the rational model:
dividing the elapsed nanoseconds by `time.Second` and multiplying the result
back by `float64(time.Second)` returns to nanoseconds. -/
theorem durationSeconds_mul_second (e : Int) (m : ℚ) :
    durationSeconds e * m * (timeSecond : ℚ) = (e : ℚ) * m := by
  have h : ((timeSecond : Int) : ℚ) ≠ 0 := by norm_num [timeSecond]
  unfold durationSeconds
  field_simp

/-! ## Claim theorems -/

/-- Claim C1 (code bug in the source): the background loops `run` and
`runWithContext` create their ticker with the constant `time.Millisecond`
(`clock.go` lines 118 and 133) instead of `ac.tickerInterval`, so a clock
built by `NewCustom`/`NewCustomCtx` with a 500 ms update interval is driven
by a 1 ms ticker, contradicting the constructors' own documentation of
`updateInterval`.  This theorem evaluates the embedded code at that failing
input. -/
theorem claim_C1_run_ignores_update_interval :
    runTickerPeriod (NewCustom 0 (3 / 2) (500 * timeMillisecond) 0) = timeMillisecond
    ∧ (NewCustom 0 (3 / 2) (500 * timeMillisecond) 0).tickerInterval
        = 500 * timeMillisecond
    ∧ runTickerPeriod (NewCustom 0 (3 / 2) (500 * timeMillisecond) 0)
        ≠ (NewCustom 0 (3 / 2) (500 * timeMillisecond) 0).tickerInterval
    ∧ runWithContextTickerPeriod (NewCustomCtx 0 (3 / 2) (500 * timeMillisecond) 0)
        ≠ (NewCustomCtx 0 (3 / 2) (500 * timeMillisecond) 0).tickerInterval := by
  refine ⟨rfl, rfl, ?_, ?_⟩ <;> decide

/-- Claim C2: `Now()` returns exactly the virtual epoch `startTime` plus the
currently published `currentDuration`, and a freshly constructed clock (any
of the four constructors, before any background tick) has published duration
zero, so `Now()` returns exactly the virtual epoch. -/
theorem claim_C2_now_epoch_plus_duration (ac : QuickTick) (now startT : Int)
    (m : ℚ) (interval : Int) :
    Now ac = ac.startTime + ac.currentDuration
    ∧ (New now m).currentDuration = 0
    ∧ Now (New now m) = (New now m).startTime
    ∧ (NewCtx now m).currentDuration = 0
    ∧ Now (NewCtx now m) = (NewCtx now m).startTime
    ∧ (NewCustom startT m interval now).currentDuration = 0
    ∧ Now (NewCustom startT m interval now) = startT
    ∧ (NewCustomCtx startT m interval now).currentDuration = 0
    ∧ Now (NewCustomCtx startT m interval now) = startT := by
  simp [Now, New, NewCtx, NewCustom, NewCustomCtx]

/-- Claim C6: `Reset()` sets `startRealTime` to the sampled current real time
and the published duration to zero, and changes nothing else - `startTime`,
`multiplier` and `tickerInterval` (and the lifecycle flags) are untouched, so
a `Now()` observing the completed reset returns the original virtual
epoch. -/
theorem claim_C6_reset_frame (ac : QuickTick) (now : Int) :
    (Reset now ac).startRealTime = now
    ∧ (Reset now ac).currentDuration = 0
    ∧ (Reset now ac).startTime = ac.startTime
    ∧ (Reset now ac).multiplier = ac.multiplier
    ∧ (Reset now ac).tickerInterval = ac.tickerInterval
    ∧ (Reset now ac).doneClosed = ac.doneClosed
    ∧ (Reset now ac).onceUsed = ac.onceUsed
    ∧ (Reset now ac).loopExited = ac.loopExited
    ∧ Now (Reset now ac) = ac.startTime := by
  simp [Reset, resetEpoch, resetZero, Now]

/-- Claim C10: `New` and `NewCtx` use one sampled timestamp for both the
virtual epoch `startTime` and the real epoch `startRealTime`, while
`NewCustom` and `NewCustomCtx` sample `startRealTime` at construction
independently of the caller-supplied `startTime`, so those two epochs can
differ (witnessed at `startTime = 0`, construction instant `1`). -/
theorem claim_C10_epoch_sampling (now startT : Int) (m : ℚ) (interval : Int) :
    ((New now m).startTime = now ∧ (New now m).startRealTime = now)
    ∧ ((NewCtx now m).startTime = now ∧ (NewCtx now m).startRealTime = now)
    ∧ ((NewCustom startT m interval now).startTime = startT
        ∧ (NewCustom startT m interval now).startRealTime = now)
    ∧ ((NewCustomCtx startT m interval now).startTime = startT
        ∧ (NewCustomCtx startT m interval now).startRealTime = now)
    ∧ (NewCustom 0 m interval 1).startTime
        ≠ (NewCustom 0 m interval 1).startRealTime
    ∧ (NewCustomCtx 0 m interval 1).startTime
        ≠ (NewCustomCtx 0 m interval 1).startRealTime := by
  simp [New, NewCtx, NewCustom, NewCustomCtx]

/-- Claim C3, counterexample to the strict-negativity part: with multiplier
`-1/10^12` and one millisecond of elapsed real time (epoch `0`, tick sampling
instant `10^6` ns), the scaled product is `-1/10^6` of a nanosecond, and Go's
`int64` conversion truncates it toward zero, so the published duration is `0`,
not negative, although the multiplier is negative and real time has
elapsed. -/
theorem claim_C3_counterexample :
    (QuickTick.mk (-1 / 1000000000000) timeMillisecond 0 0 0 false false
        false).multiplier < 0
    ∧ (QuickTick.mk (-1 / 1000000000000) timeMillisecond 0 0 0 false false
        false).startRealTime < 1000000
    ∧ (updateClock 1000000 (QuickTick.mk (-1 / 1000000000000) timeMillisecond
        0 0 0 false false false)).currentDuration = 0 := by
  refine ⟨by norm_num, by norm_num, ?_⟩
  norm_num [updateClock, updateClockRead, updateClockPublish, durationSeconds,
    ratTrunc, Int.tdiv, timeSecond]
  decide

/-- Claim C3 (amended): every execution of `updateClock` recomputes the
published duration fresh - the result is independent of the previously
published value and equals the elapsed real seconds times the multiplier,
converted back to nanoseconds and truncated toward zero (`int64` conversion).
With multiplier `0` the published duration is always `0`; with a negative
multiplier and elapsed real time it is non-positive, and strictly negative as
soon as the scaled product reaches magnitude one nanosecond (the truncation
keeps smaller products at `0`, see the counterexample). -/
theorem claim_C3_update_recomputes_fresh (ac : QuickTick) (now d : Int) :
    (updateClock now { ac with currentDuration := d }).currentDuration
        = (updateClock now ac).currentDuration
    ∧ (updateClock now ac).currentDuration
        = ratTrunc (durationSeconds (now - ac.startRealTime) * ac.multiplier
            * (timeSecond : ℚ))
    ∧ (updateClock now ac).currentDuration
        = ratTrunc (((now - ac.startRealTime : Int) : ℚ) * ac.multiplier)
    ∧ (ac.multiplier = 0 → (updateClock now ac).currentDuration = 0)
    ∧ (ac.multiplier < 0 → ac.startRealTime ≤ now →
        (updateClock now ac).currentDuration ≤ 0)
    ∧ (ac.multiplier < 0 → ac.startRealTime < now →
        ((now - ac.startRealTime : Int) : ℚ) * ac.multiplier ≤ -1 →
        (updateClock now ac).currentDuration < 0) := by
  have hval : (updateClock now ac).currentDuration
      = ratTrunc (((now - ac.startRealTime : Int) : ℚ) * ac.multiplier) := by
    simp [updateClock, updateClockRead, updateClockPublish,
      durationSeconds_mul_second]
  refine ⟨?_, ?_, hval, ?_, ?_, ?_⟩
  · simp [updateClock, updateClockRead, updateClockPublish]
  · simp [updateClock, updateClockRead, updateClockPublish]
  · intro hm
    rw [hval, hm, mul_zero, ratTrunc_zero]
  · intro hm hle
    rw [hval]
    refine ratTrunc_nonpos _ ?_
    have he : (0 : ℚ) ≤ ((now - ac.startRealTime : Int) : ℚ) := by
      exact_mod_cast Int.sub_nonneg.mpr hle
    exact mul_nonpos_of_nonneg_of_nonpos he (le_of_lt hm)
  · intro _ _ hprod
    rw [hval]
    exact ratTrunc_neg_of_le_neg_one _ hprod

/-- Claim C3 witness: at concrete inputs, a zero multiplier publishes `0`, and
multiplier `-2` over one elapsed second publishes a strictly negative
duration. -/
theorem claim_C3_update_recomputes_fresh_witness :
    (updateClock 1000000 (QuickTick.mk 0 timeMillisecond 0 0 7 false false
        false)).currentDuration = 0
    ∧ (updateClock 1000000000 (QuickTick.mk (-2) timeMillisecond 0 0 7 false
        false false)).currentDuration < 0 :=
  ⟨(claim_C3_update_recomputes_fresh (QuickTick.mk 0 timeMillisecond 0 0 7
      false false false) 1000000 7).2.2.2.1 rfl,
   (claim_C3_update_recomputes_fresh (QuickTick.mk (-2) timeMillisecond 0 0 7
      false false false) 1000000000 7).2.2.2.2.2 (by norm_num) (by norm_num)
      (by norm_num)⟩

theorem Stop_onceUsed (ac : QuickTick) : (Stop ac).onceUsed = true := by
  by_cases h : ac.onceUsed <;> simp [Stop, h]

theorem Stop_of_onceUsed (ac : QuickTick) (h : ac.onceUsed = true) :
    Stop ac = ac := by
  simp [Stop, h]

theorem Stop_idem (ac : QuickTick) : Stop (Stop ac) = Stop ac :=
  Stop_of_onceUsed (Stop ac) (Stop_onceUsed ac)

theorem stopN_Stop (n : Nat) (ac : QuickTick) :
    stopN n (Stop ac) = Stop ac := by
  induction n generalizing ac with
  | zero => rfl
  | succ n ih => rw [stopN, Stop_idem, ih]

theorem closeCount_of_onceUsed (n : Nat) (ac : QuickTick)
    (h : ac.onceUsed = true) : closeCount n ac = 0 := by
  induction n generalizing ac with
  | zero => rfl
  | succ n ih =>
    rw [closeCount, Stop_of_onceUsed ac h, ih ac h]
    simp [stopCloses, h]

/-- Claim C5: `Stop()` is idempotent and exactly-once.  Starting from a clock
whose `once` is unused and whose `done` channel is open (every constructor
yields such a state), any number `n ≥ 1` of `Stop()` calls leaves the same
state as a single call, closes the `done` channel exactly once, and no call
ever panics: `once.Do` runs the `close` body only on the first call, so
`close` never sees an already-closed channel.  `sync.Once` serialises
concurrent `Do` calls, so concurrent `Stop()` calls execute as some
sequential order, which this theorem covers for every `n`. -/
theorem claim_C5_stop_idempotent (ac : QuickTick) (n : Nat) (hn : 1 ≤ n)
    (hfresh : ac.onceUsed = false) (hopen : ac.doneClosed = false) :
    (∀ k : Nat, StopE (stopN k ac) = Except.ok (stopN (k + 1) ac))
    ∧ stopN n ac = Stop ac
    ∧ closeCount n ac = 1
    ∧ (Stop ac).doneClosed = true
    ∧ (Stop ac).onceUsed = true
    ∧ Stop (Stop ac) = Stop ac := by
  obtain ⟨m, rfl⟩ : ∃ m, n = m + 1 := ⟨n - 1, by omega⟩
  refine ⟨?_, ?_, ?_, ?_, Stop_onceUsed ac, Stop_idem ac⟩
  · intro k
    cases k with
    | zero =>
      simp [stopN, StopE, closeChan, Stop, hfresh, hopen]
    | succ k =>
      rw [stopN, stopN_Stop, stopN, stopN_Stop,
        StopE, if_pos (Stop_onceUsed ac)]
  · rw [stopN, stopN_Stop]
  · rw [closeCount, closeCount_of_onceUsed m (Stop ac) (Stop_onceUsed ac)]
    simp [stopCloses, hfresh]
  · simp [Stop, hfresh]

/-- Claim C5 witness: three sequential `Stop()` calls on a fresh clock
collapse to one, close the channel exactly once, and the first call does not
panic. -/
theorem claim_C5_stop_idempotent_witness :
    stopN 3 (New 0 1) = Stop (New 0 1)
    ∧ closeCount 3 (New 0 1) = 1
    ∧ StopE (stopN 0 (New 0 1)) = Except.ok (stopN 1 (New 0 1)) :=
  ⟨(claim_C5_stop_idempotent (New 0 1) 3 (by norm_num) rfl rfl).2.1,
   (claim_C5_stop_idempotent (New 0 1) 3 (by norm_num) rfl rfl).2.2.1,
   (claim_C5_stop_idempotent (New 0 1) 3 (by norm_num) rfl rfl).1 0⟩

/-- Every lifecycle transition leaves `startTime` unchanged: nothing in the
source ever writes `startTime` after construction. -/
theorem applyOp_startTime (ac : QuickTick) (op : Op) :
    (applyOp ac op).startTime = ac.startTime := by
  cases op with
  | tick now =>
    by_cases h : ac.loopExited <;>
      simp [applyOp, h, updateClock, updateClockRead, updateClockPublish]
  | stop => by_cases h : ac.onceUsed <;> simp [applyOp, Stop, h]
  | exitLoop => by_cases h : ac.doneClosed <;> simp [applyOp, h]
  | ctxCancel =>
    by_cases h : ac.loopExited <;> by_cases h2 : ac.onceUsed <;>
      simp [applyOp, Stop, h, h2]
  | reset now => simp [applyOp, Reset, resetEpoch, resetZero]

/-- Once the background goroutine has returned, no transition revives it. -/
theorem applyOp_loopExited (ac : QuickTick) (op : Op)
    (h : ac.loopExited = true) : (applyOp ac op).loopExited = true := by
  cases op with
  | tick now => simp [applyOp, h]
  | stop => by_cases h2 : ac.onceUsed <;> simp [applyOp, Stop, h2, h]
  | exitLoop => by_cases h2 : ac.doneClosed <;> simp [applyOp, h2, h]
  | ctxCancel => simp [applyOp, h]
  | reset now => simp [applyOp, Reset, resetEpoch, resetZero, h]

/-- On a clock whose loop has exited, every transition other than a `Reset()`
leaves the published duration unchanged. -/
theorem applyOp_currentDuration_frozen (ac : QuickTick) (op : Op)
    (h : ac.loopExited = true) (hop : op.isReset = false) :
    (applyOp ac op).currentDuration = ac.currentDuration := by
  cases op with
  | tick now => simp [applyOp, h]
  | stop => by_cases h2 : ac.onceUsed <;> simp [applyOp, Stop, h2]
  | exitLoop => by_cases h2 : ac.doneClosed <;> simp [applyOp, h2]
  | ctxCancel => simp [applyOp, h]
  | reset now => simp [Op.isReset] at hop

theorem applyTrace_frozen (ac : QuickTick) (ops : List Op)
    (hexited : ac.loopExited = true)
    (hnoreset : ∀ op ∈ ops, op.isReset = false) :
    (applyTrace ac ops).loopExited = true
    ∧ (applyTrace ac ops).currentDuration = ac.currentDuration
    ∧ (applyTrace ac ops).startTime = ac.startTime := by
  induction ops generalizing ac with
  | nil => exact ⟨hexited, rfl, rfl⟩
  | cons op ops ih =>
    have hop : op.isReset = false := hnoreset op (List.mem_cons_self op ops)
    have hrest : ∀ o ∈ ops, o.isReset = false :=
      fun o ho => hnoreset o (List.mem_cons_of_mem op ho)
    have hex : (applyOp ac op).loopExited = true :=
      applyOp_loopExited ac op hexited
    obtain ⟨h1, h2, h3⟩ := ih (applyOp ac op) hex hrest
    exact ⟨h1,
      h2.trans (applyOp_currentDuration_frozen ac op hexited hop),
      h3.trans (applyOp_startTime ac op)⟩

/-- Claim C7: once the background loop has exited, the clock never resumes -
along any further trace of ticker fires, `Stop()` calls, loop-exit and
context-cancellation events (no `Reset()`), the loop stays exited, the
published duration is never updated again, and every `Now()` returns the same
frozen value, however much real time (the `now` samples of the ticks)
passes. -/
theorem claim_C7_stopped_clock_frozen (ac : QuickTick) (ops : List Op)
    (hexited : ac.loopExited = true)
    (hnoreset : ∀ op ∈ ops, op.isReset = false) :
    (applyTrace ac ops).loopExited = true
    ∧ (applyTrace ac ops).currentDuration = ac.currentDuration
    ∧ Now (applyTrace ac ops) = Now ac := by
  obtain ⟨h1, h2, h3⟩ := applyTrace_frozen ac ops hexited hnoreset
  exact ⟨h1, h2, by rw [Now, Now, h2, h3]⟩

/-- Claim C7 witness: a stopped clock with published duration `42` is frozen
across a trace of two ticks, a redundant stop and a loop-exit event. -/
theorem claim_C7_stopped_clock_frozen_witness :
    Now (applyTrace (QuickTick.mk 1 timeMillisecond 5 0 42 true true true)
        [Op.tick 7, Op.stop, Op.tick 1000000000, Op.exitLoop, Op.ctxCancel])
      = Now (QuickTick.mk 1 timeMillisecond 5 0 42 true true true) :=
  (claim_C7_stopped_clock_frozen
    (QuickTick.mk 1 timeMillisecond 5 0 42 true true true)
    [Op.tick 7, Op.stop, Op.tick 1000000000, Op.exitLoop, Op.ctxCancel]
    rfl (by decide)).2.2

/-- Once the loop has exited and the published duration is zero, it stays
zero along every further trace, `Reset()` calls included (a reset writes zero
again), and `startTime` never changes. -/
theorem applyTrace_zero_after_exit (ac : QuickTick) (ops : List Op)
    (hexited : ac.loopExited = true) (hzero : ac.currentDuration = 0) :
    (applyTrace ac ops).loopExited = true
    ∧ (applyTrace ac ops).currentDuration = 0
    ∧ (applyTrace ac ops).startTime = ac.startTime := by
  induction ops generalizing ac with
  | nil => exact ⟨hexited, hzero, rfl⟩
  | cons op ops ih =>
    have hex : (applyOp ac op).loopExited = true :=
      applyOp_loopExited ac op hexited
    have hz : (applyOp ac op).currentDuration = 0 := by
      cases op with
      | tick now => simp [applyOp, hexited, hzero]
      | stop => by_cases h2 : ac.onceUsed <;> simp [applyOp, Stop, h2, hzero]
      | exitLoop => by_cases h2 : ac.doneClosed <;> simp [applyOp, h2, hzero]
      | ctxCancel => simp [applyOp, hexited, hzero]
      | reset now => simp [applyOp, Reset, resetEpoch, resetZero]
    obtain ⟨h1, h2, h3⟩ := ih (applyOp ac op) hex hz
    exact ⟨h1, h2, h3.trans (applyOp_startTime ac op)⟩

/-- Claim C8: `Reset()` on a clock whose background loop has exited is
permitted and sets the published duration to zero permanently: `Now()`
returns exactly the virtual epoch immediately after the reset and along every
further trace of events (even further resets), since no loop runs to update
the duration. -/
theorem claim_C8_reset_after_stop (ac : QuickTick) (now : Int) (ops : List Op)
    (hexited : ac.loopExited = true) :
    Now (Reset now ac) = ac.startTime
    ∧ (applyTrace (Reset now ac) ops).loopExited = true
    ∧ Now (applyTrace (Reset now ac) ops) = ac.startTime := by
  have hex : (Reset now ac).loopExited = true := by
    simpa [Reset, resetEpoch, resetZero] using hexited
  obtain ⟨h1, h2, h3⟩ := applyTrace_zero_after_exit (Reset now ac) ops hex
    (by simp [Reset, resetEpoch, resetZero])
  refine ⟨by simp [Now, Reset, resetEpoch, resetZero], h1, ?_⟩
  rw [Now, h2, h3]
  simp [Reset, resetEpoch, resetZero]

/-- Claim C8 witness: resetting a stopped clock that had accumulated `42`
pins `Now()` to the virtual epoch `5`, across later ticks and another
reset. -/
theorem claim_C8_reset_after_stop_witness :
    Now (applyTrace
        (Reset 9 (QuickTick.mk 1 timeMillisecond 5 0 42 true true true))
        [Op.tick 1000000000, Op.reset 77, Op.tick 2000000000])
      = 5 :=
  (claim_C8_reset_after_stop
    (QuickTick.mk 1 timeMillisecond 5 0 42 true true true) 9
    [Op.tick 1000000000, Op.reset 77, Op.tick 2000000000] rfl).2.2

/-- Claim C9: for a clock run with `runWithContext`, the context-cancellation
branch (`case <-ctx.Done(): ac.Stop(); return`) invokes `Stop()` and exits
the loop, reaching exactly the state an explicit `Stop()` followed by the
loop's exit reaches, with `done` closed, `once` used and the loop exited -
the idempotent terminal stopped state.  It is safe to race with a concurrent
explicit `Stop()`: performing the explicit stop before or after the
cancellation branch yields the same state.  The hypothesis
`doneClosed = onceUsed` holds in every reachable state (constructors make
both `false`; only `Stop` changes them, to `true` together); the loop can
take the branch only while it has not exited. -/
theorem claim_C9_ctx_cancel_stops (ac : QuickTick)
    (hinv : ac.doneClosed = ac.onceUsed) (hrun : ac.loopExited = false) :
    applyOp ac Op.ctxCancel = applyTrace ac [Op.stop, Op.exitLoop]
    ∧ (applyOp ac Op.ctxCancel).doneClosed = true
    ∧ (applyOp ac Op.ctxCancel).onceUsed = true
    ∧ (applyOp ac Op.ctxCancel).loopExited = true
    ∧ applyOp (applyOp ac Op.ctxCancel) Op.stop = applyOp ac Op.ctxCancel
    ∧ applyOp (applyOp ac Op.stop) Op.ctxCancel = applyOp ac Op.ctxCancel := by
  by_cases h : ac.onceUsed
  · have hd : ac.doneClosed = true := by rw [hinv, h]
    simp [applyOp, applyTrace, Stop, h, hd, hrun]
  · have hd : ac.doneClosed = false := by
      rw [hinv]
      exact eq_false_of_ne_true h
    simp [applyOp, applyTrace, Stop, h, hd, hrun]

/-- Claim C9 witness: on a freshly constructed context clock the cancellation
branch reaches the terminal stopped state of an explicit stop. -/
theorem claim_C9_ctx_cancel_stops_witness :
    applyOp (NewCtx 0 2) Op.ctxCancel
      = applyTrace (NewCtx 0 2) [Op.stop, Op.exitLoop]
    ∧ (applyOp (NewCtx 0 2) Op.ctxCancel).doneClosed = true :=
  ⟨(claim_C9_ctx_cancel_stops (NewCtx 0 2) rfl rfl).1,
   (claim_C9_ctx_cancel_stops (NewCtx 0 2) rfl rfl).2.1⟩

/-- Claim C4, counterexample: in the interleaving `readResetPublish` - the
tick's locked read of the epoch, then the whole `Reset()` critical section,
then the tick's lock-free atomic store, an order the source permits because
`updateClock` releases `ac.mu` before computing and publishing - the value
published after `Reset()` has stored zero is the stale `10^9` ns computed
from the pre-reset epoch `0`, not `0`.  Start state: multiplier `1`, both
epochs `0`; the tick samples `10^9`, the reset samples `2 * 10^9`. -/
theorem claim_C4_counterexample :
    publishAfterResetZero TickResetSchedule.readResetPublish = true
    ∧ tickElapsed TickResetSchedule.readResetPublish 1000000000 2000000000
        (QuickTick.mk 1 timeMillisecond 0 0 0 false false false)
      = 1000000000
        - (QuickTick.mk 1 timeMillisecond 0 0 0 false false
            false).startRealTime
    ∧ (execTickReset TickResetSchedule.readResetPublish 1000000000 2000000000
        (QuickTick.mk 1 timeMillisecond 0 0 0 false false
          false)).currentDuration = 1000000000
    ∧ (1000000000 : Int) ≠ 0 := by
  refine ⟨rfl, rfl, ?_, by norm_num⟩
  norm_num [execTickReset, updateClockRead, updateClockPublish, Reset,
    resetEpoch, resetZero, durationSeconds, ratTrunc, Int.tdiv, timeSecond]

/-- Claim C4 (amended): the mutex in `updateClock` and `Reset()` makes the
tick's read of the real epoch mutually exclusive with the reset's writes, so
in every permitted interleaving the elapsed interval is computed against the
old epoch or against the new one in full - never a mix - and the reset's new
epoch always survives.  But the tick's computation and atomic store happen
after the mutex is released, so the final published duration is either zero
(the reset's store wins) or the tick's published value, and in the
`readResetPublish` interleaving the latter was computed against the pre-reset
epoch yet lands after `Reset()` stored zero (the counterexample): the source
does not give the full read-compute-publish sequence mutual exclusion. -/
theorem claim_C4_epoch_read_consistent (s : TickResetSchedule)
    (tickNow resetNow : Int) (ac : QuickTick) :
    (tickElapsed s tickNow resetNow ac = tickNow - ac.startRealTime
      ∨ tickElapsed s tickNow resetNow ac = tickNow - resetNow)
    ∧ (execTickReset s tickNow resetNow ac).startRealTime = resetNow
    ∧ ((execTickReset s tickNow resetNow ac).currentDuration = 0
      ∨ (execTickReset s tickNow resetNow ac).currentDuration
          = (updateClockPublish (tickElapsed s tickNow resetNow ac)
              ac).currentDuration) := by
  cases s <;>
    simp [tickElapsed, execTickReset, updateClock, updateClockRead,
      updateClockPublish, Reset, resetEpoch, resetZero]

end QuickTick
